import Mathlib

/-!
Verification of `src/polygon_exporter.py`, a Prometheus exporter that polls
three Polygon-related HTTP endpoints and republishes extracted heights as
labeled gauges.

The embedding models:
* JSON values (`Json`) and the Python exceptions the script can raise
  (`PyErr`); fallible Python code becomes `Except PyErr`.
* Python `int(s, 16)` and `float(x)` on the values these APIs produce;
  Python floats are modelled by `Rat`, which is exact on the integral
  values involved (no claim depends on binary rounding).
* `urllib.parse.urlparse(...).hostname` (list-of-chars implementation).
* The network as an oracle `Request → HttpResult`; behavior of the
  `requests` library that happens before any I/O (e.g. `MissingSchema` /
  `InvalidURL` raised for URLs without an http(s) scheme or host) is
  modelled in `requestRaisesBeforeSend`.
* The urllib3 `Retry` machinery configured by `new_https` (needed to
  settle the retry-policy claim), and the `requests.Session` adapter
  mounting / lookup.
* The three fetchers, the gauge registry, and the poll loop as explicit
  state passing (`pollCycle`, `runCycles`).
-/

/-! ### List/character helpers -/

/-- Boolean prefix test on character lists (used for `str.startswith` and
scheme checks; avoids partially-opaque core string primitives). -/
def listStartsWith : List Char → List Char → Bool
  | [], _ => true
  | _ :: _, [] => false
  | a :: as, b :: bs => a == b && listStartsWith as bs

/-- The characters of a string, lowercased (models Python `str.lower()` on
the ASCII strings that occur here). -/
def lowerList (s : String) : List Char := s.toList.map Char.toLower

/-- Strip leading and trailing whitespace (models Python `str.strip()` as
applied implicitly by `int(...)` / `float(...)`). -/
def trimWs (cs : List Char) : List Char :=
  ((cs.dropWhile Char.isWhitespace).reverse.dropWhile Char.isWhitespace).reverse

/-- Split a list at the first character satisfying `p`; returns the part
before it and, when one exists, the part after it. -/
def splitAtChar (p : Char → Bool) : List Char → (List Char × Option (List Char))
  | [] => ([], none)
  | c :: r =>
    if p c then ([], some r)
    else
      let (a, b) := splitAtChar p r
      (c :: a, b)

/-! ### Python numeric parsing -/

/-- Value of a hexadecimal digit, if the character is one. -/
def hexDigit? (c : Char) : Option Nat :=
  if '0' ≤ c ∧ c ≤ '9' then some (c.toNat - '0'.toNat)
  else if 'a' ≤ c ∧ c ≤ 'f' then some (c.toNat - 'a'.toNat + 10)
  else if 'A' ≤ c ∧ c ≤ 'F' then some (c.toNat - 'A'.toNat + 10)
  else none

/-- After a first hex digit: digits with single underscores allowed only
between digits (Python underscore grouping rules). -/
def hexTailOk : List Char → Bool
  | [] => true
  | ['_'] => false
  | '_' :: c :: r2 => (hexDigit? c).isSome && hexTailOk r2
  | c :: rest => (hexDigit? c).isSome && hexTailOk rest

/-- A nonempty hex digit string with legal underscore grouping. -/
def hexGroupsOk : List Char → Bool
  | [] => false
  | c :: rest => (hexDigit? c).isSome && hexTailOk rest

/-- Numeric value of a hex digit string; underscores are skipped (callers
validate with `hexGroupsOk` first). -/
def hexVal (cs : List Char) : Nat :=
  cs.foldl (fun a c => match hexDigit? c with | some d => a * 16 + d | none => a) 0

/-- Value of a decimal digit, if the character is one. -/
def decDigit? (c : Char) : Option Nat :=
  if '0' ≤ c ∧ c ≤ '9' then some (c.toNat - '0'.toNat) else none

/-- Numeric value of a decimal digit string. -/
def decVal (cs : List Char) : Nat :=
  cs.foldl (fun a c => match decDigit? c with | some d => a * 10 + d | none => a) 0

/-- All characters are decimal digits and the list is nonempty. -/
def allDecDigits (cs : List Char) : Bool :=
  !cs.isEmpty && cs.all (fun c => (decDigit? c).isSome)

/-- Python exceptions that the script can raise (the distinctions the
claims need). `keyError` carries the missing key, stringified. -/
inductive PyErr where
  | keyError (k : String)
  | indexError
  | typeError
  | valueError
  | jsonDecodeError
deriving DecidableEq

/-- Models Python `int(s, 16)`: strips whitespace, accepts an optional
sign and an optional `0x`/`0X` base marker (an underscore may follow the
marker), then hex digits with underscore grouping; anything else raises
`ValueError`. -/
def pyIntHexOfString (s : String) : Except PyErr Int :=
  let cs := trimWs s.toList
  let signAndRest : Int × List Char :=
    match cs with
    | '+' :: r => (1, r)
    | '-' :: r => (-1, r)
    | r => (1, r)
  let sign := signAndRest.1
  let cs1 := signAndRest.2
  let cs2 : List Char :=
    match cs1 with
    | '0' :: c :: r =>
      if c == 'x' || c == 'X' then
        match r with
        | '_' :: r2 => r2
        | _ => r
      else cs1
    | _ => cs1
  if hexGroupsOk cs2 then Except.ok (sign * (hexVal cs2 : Int))
  else Except.error PyErr.valueError

/-- Mantissa of a Python float literal: `digits`, `digits.digits`,
`digits.`, or `.digits` (at least one digit overall). -/
def parseMantissa (cs : List Char) : Option Rat :=
  let (ip, rest) := splitAtChar (fun c => c == '.') cs
  match rest with
  | none => if allDecDigits ip then some ((decVal ip : Nat) : Rat) else none
  | some fp =>
    if ip.isEmpty && fp.isEmpty then none
    else if ip.all (fun c => (decDigit? c).isSome) && fp.all (fun c => (decDigit? c).isSome) then
      some (((decVal ip : Nat) : Rat) + ((decVal fp : Nat) : Rat) / ((10 ^ fp.length : Nat) : Rat))
    else none

/-- Models Python `float(s)` on ordinary decimal literals with optional
sign, fraction and exponent. Simplifications (noted, unexercised by any
claim): `inf`/`nan` spellings and underscore grouping are rejected. -/
def pyFloatOfString (s : String) : Except PyErr Rat :=
  let cs := trimWs s.toList
  let signAndRest : Rat × List Char :=
    match cs with
    | '+' :: r => (1, r)
    | '-' :: r => (-1, r)
    | r => (1, r)
  let sign := signAndRest.1
  let cs1 := signAndRest.2
  match splitAtChar (fun c => c == 'e' || c == 'E') cs1 with
  | (mant, none) =>
    match parseMantissa mant with
    | some q => Except.ok (sign * q)
    | none => Except.error PyErr.valueError
  | (mant, some ex) =>
    let esignAndRest : Bool × List Char :=
      match ex with
      | '+' :: r => (false, r)
      | '-' :: r => (true, r)
      | r => (false, r)
    let eneg := esignAndRest.1
    let ed := esignAndRest.2
    if allDecDigits ed then
      match parseMantissa mant with
      | some q =>
        let scale : Rat := ((10 ^ decVal ed : Nat) : Rat)
        Except.ok (sign * (if eneg then q / scale else q * scale))
      | none => Except.error PyErr.valueError
    else Except.error PyErr.valueError

/-! ### JSON values and Python-style access -/

/-- JSON values as decoded by `resp.json()`. Numbers are modelled by `Rat`
(exact for the integral heights these APIs return). -/
inductive Json where
  | null
  | bool (b : Bool)
  | num (q : Rat)
  | str (s : String)
  | arr (elems : List Json)
  | obj (fields : List (String × Json))

/-- Python `data[k]` for a string key: on a dict, the value or `KeyError`;
on any non-dict value, `TypeError`. -/
def Json.getKey : Json → String → Except PyErr Json
  | Json.obj fields, k =>
    match fields.find? (fun p => p.1 == k) with
    | some p => Except.ok p.2
    | none => Except.error (PyErr.keyError k)
  | _, _ => Except.error PyErr.typeError

/-- Python `data[0]`: on a list, the first element or `IndexError`; on a
string, the first character (as a one-character string) or `IndexError`;
on a dict, `KeyError` for the integer key 0; otherwise `TypeError`. -/
def Json.getIdx0 : Json → Except PyErr Json
  | Json.arr [] => Except.error PyErr.indexError
  | Json.arr (x :: _) => Except.ok x
  | Json.str s =>
    match s.toList with
    | [] => Except.error PyErr.indexError
    | c :: _ => Except.ok (Json.str (String.mk [c]))
  | Json.obj _ => Except.error (PyErr.keyError "0")
  | _ => Except.error PyErr.typeError

/-- Python `float(x)` on a JSON value: numbers pass through, booleans
coerce to 0/1, numeric strings are parsed, everything else raises
`TypeError`. -/
def pyFloat : Json → Except PyErr Rat
  | Json.num q => Except.ok q
  | Json.bool b => Except.ok (if b then 1 else 0)
  | Json.str s => pyFloatOfString s
  | _ => Except.error PyErr.typeError

/-- Python `int(x, 16)`: only strings are accepted with an explicit base
(`TypeError` otherwise). -/
def pyInt16 : Json → Except PyErr Int
  | Json.str s => pyIntHexOfString s
  | _ => Except.error PyErr.typeError

instance {ε α : Type} [DecidableEq ε] [DecidableEq α] : DecidableEq (Except ε α)
  | Except.ok a, Except.ok b =>
    if h : a = b then Decidable.isTrue (by rw [h])
    else Decidable.isFalse (by intro he; cases he; exact h rfl)
  | Except.ok _, Except.error _ => Decidable.isFalse (by intro he; cases he)
  | Except.error _, Except.ok _ => Decidable.isFalse (by intro he; cases he)
  | Except.error e, Except.error f =>
    if h : e = f then Decidable.isTrue (by rw [h])
    else Decidable.isFalse (by intro he; cases he; exact h rfl)

/-! ### `urllib.parse.urlparse(...).hostname` -/

/-- Characters legal in a URL scheme (`urllib.parse.scheme_chars`). -/
def schemeChars : List Char :=
  "abcdefghijklmnopqrstuvwxyzABCDEFGHIJKLMNOPQRSTUVWXYZ0123456789+-.".toList

/-- Index of the first `:` in a character list, if any. -/
def idxOfColon : List Char → Option Nat
  | [] => none
  | c :: rest => if c == ':' then some 0 else (idxOfColon rest).map (· + 1)

/-- Drop a leading `scheme:` when present and well-formed, as `urlsplit`
does (first character alphabetic, all scheme characters legal). -/
def splitSchemeRest (cs : List Char) : List Char :=
  match idxOfColon cs with
  | some i =>
    if 0 < i
        && (match cs.head? with | some c => c.isAlpha | none => false)
        && (cs.take i).all (fun c => schemeChars.contains c) then
      cs.drop (i + 1)
    else cs
  | none => cs

/-- The network-location component: the characters after a leading `//`
up to the first `/`, `?` or `#` (empty when the URL has no `//`). -/
def netlocOf (cs : List Char) : List Char :=
  match cs with
  | '/' :: '/' :: rest => rest.takeWhile (fun c => !(c == '/') && !(c == '?') && !(c == '#'))
  | _ => []

/-- Hostname extraction from a netloc: text after the last `@`, then
either the bracketed IPv6 literal or the part before the first `:`,
lowercased; `none` when empty (CPython `_hostinfo` + `.hostname`). -/
def hostnameOfList (cs0 : List Char) : Option (List Char) :=
  let nl := netlocOf (splitSchemeRest cs0)
  let afterAt := (nl.reverse.takeWhile (fun c => !(c == '@'))).reverse
  let host :=
    if afterAt.contains '[' then
      ((afterAt.dropWhile (fun c => !(c == '['))).drop 1).takeWhile (fun c => !(c == ']'))
    else afterAt.takeWhile (fun c => !(c == ':'))
  if host.isEmpty then none else some (host.map Char.toLower)

/-- `urlparse(s).hostname` (an `Option`: Python returns `None` when the
URL has no host). -/
def urlparseHostname (s : String) : Option String :=
  (hostnameOfList s.toList).map (fun l => String.mk l)

/-! ### HTTP requests and the network oracle -/

/-- An HTTP request as issued by the fetchers. -/
structure Request where
  method : String
  url : String
  jsonBody : Option Json := none

/-- Outcome of one session-level HTTP call: a transport exception (any
`Exception` caught by the fetchers' guards) or a final response with a
status code and a body; `none` stands for a body that is not valid JSON
(`resp.json()` raises on it). -/
inductive HttpResult where
  | exn
  | resp (status : Nat) (body : Option Json)

/-- Models the `requests` library raising before any network I/O:
`MissingSchema`/`InvalidSchema` when the URL does not start with
`http://` or `https://` (case-insensitively), `InvalidURL` when it has no
host. Such exceptions are also caught by the fetchers' guards. -/
def requestRaisesBeforeSend (url : String) : Bool :=
  !(listStartsWith (lowerList "http://") (lowerList url)
      || listStartsWith (lowerList "https://") (lowerList url))
    || (urlparseHostname url).isNone

/-- One session request: either an immediate library exception or the
outcome the network oracle assigns to the request. The oracle represents
the upstream's behavior for the whole session-level call (after any
HTTP-layer retries). -/
def sessionSend (net : Request → HttpResult) (req : Request) : HttpResult :=
  if requestRaisesBeforeSend req.url then HttpResult.exn else net req

/-! ### The urllib3 retry policy built by `new_https`

`new_https` constructs `Retry(total=4, status_forcelist=[...])` and mounts
it on an `HTTPAdapter` for the `https://` scheme only. The definitions
below model the relevant documented urllib3 semantics (its `Retry` class
and the retry loop of `HTTPConnectionPool.urlopen`): these are
dependencies, not repository code, but the retry claim is about the
behavior they give the configured client. -/

/-- urllib3 `Retry.DEFAULT_ALLOWED_METHODS`. -/
def DEFAULT_ALLOWED_METHODS : List String :=
  ["DELETE", "GET", "HEAD", "OPTIONS", "PUT", "TRACE"]

/-- urllib3 `Retry.RETRY_AFTER_STATUS_CODES`. -/
def RETRY_AFTER_STATUS_CODES : List Nat := [413, 429, 503]

/-- The fields of urllib3 `Retry` relevant here. `connect`, `read`,
`redirect` and `status` are left at their default `None` by `new_https`,
so only `total` counts attempts. -/
structure RetryPolicy where
  total : Int
  statusForcelist : List Nat
  allowedMethods : List String
  respectRetryAfterHeader : Bool
deriving DecidableEq

/-- The `retry_strategy` constructed in `new_https` (src lines 13-16). -/
def retry_strategy : RetryPolicy :=
  { total := 4
    statusForcelist := [104, 408, 425, 429, 500, 502, 503, 504]
    allowedMethods := DEFAULT_ALLOWED_METHODS
    respectRetryAfterHeader := true }

/-- urllib3 `Retry._is_method_retryable` (method case already uppercase
here). -/
def RetryPolicy.isMethodRetryable (r : RetryPolicy) (method : String) : Bool :=
  r.allowedMethods.contains method

/-- urllib3 `Retry.is_retry(method, status_code, has_retry_after)`. -/
def RetryPolicy.isRetry (r : RetryPolicy) (method : String) (status : Nat)
    (hasRetryAfter : Bool) : Bool :=
  if !(r.isMethodRetryable method) then false
  else if r.statusForcelist.contains status then true
  else decide (r.total ≠ 0) && r.respectRetryAfterHeader && hasRetryAfter
    && RETRY_AFTER_STATUS_CODES.contains status

/-- urllib3 `Retry.is_exhausted` with only `total` set: falsy counters
are filtered out, so exhaustion means `total < 0`. -/
def RetryPolicy.isExhausted (r : RetryPolicy) : Bool := decide (r.total < 0)

/-- urllib3 `Retry.increment`: decrement `total`; raise `MaxRetryError`
(the `error` case) when the new state is exhausted. -/
def RetryPolicy.increment (r : RetryPolicy) : Except Unit RetryPolicy :=
  let r2 := { r with total := r.total - 1 }
  if r2.isExhausted then Except.error () else Except.ok r2

/-- Outcome of one connection attempt inside the urllib3 retry loop. -/
inductive AttemptResult where
  | connError
  | response (status : Nat) (hasRetryAfter : Bool)
deriving DecidableEq

/-- Result of the retry loop: `MaxRetryError` after the given number of
attempts, or a delivered response with its status and attempt count. -/
inductive FetchResult where
  | maxRetryError (attempts : Nat)
  | got (status : Nat) (attempts : Nat)
deriving DecidableEq

/-- The retry loop of `HTTPConnectionPool.urlopen` over a script of
attempt outcomes: connection errors go through `Retry.increment` and are
retried until exhaustion; responses are retried when `is_retry` says so
(raising after exhaustion, `raise_on_status` being true by default). The
fuel argument only bounds recursion; `urlopen` supplies `total + 2`,
which the decrementing `total` can never consume. -/
def urlopenSteps (method : String) (script : Nat → AttemptResult) :
    Nat → RetryPolicy → Nat → FetchResult
  | 0, _, attempt => FetchResult.maxRetryError attempt
  | fuel + 1, r, attempt =>
    match script attempt with
    | AttemptResult.connError =>
      match r.increment with
      | Except.error _ => FetchResult.maxRetryError (attempt + 1)
      | Except.ok r2 => urlopenSteps method script fuel r2 (attempt + 1)
    | AttemptResult.response status hra =>
      if r.isRetry method status hra then
        match r.increment with
        | Except.error _ => FetchResult.maxRetryError (attempt + 1)
        | Except.ok r2 => urlopenSteps method script fuel r2 (attempt + 1)
      else FetchResult.got status (attempt + 1)

/-- Run the urllib3 retry loop from a fresh policy. -/
def urlopen (r : RetryPolicy) (method : String) (script : Nat → AttemptResult) : FetchResult :=
  urlopenSteps method script (r.total + 2).toNat r 0

/-! ### `requests.Session` adapter mounting -/

/-- The part of `requests.HTTPAdapter` the claims are about. -/
structure HTTPAdapter where
  maxRetries : RetryPolicy
deriving DecidableEq

/-- The default adapter's `Retry(0, read=False)`: no attempts budget, no
status forcelist. -/
def defaultAdapterPolicy : RetryPolicy :=
  { total := 0
    statusForcelist := []
    allowedMethods := DEFAULT_ALLOWED_METHODS
    respectRetryAfterHeader := true }

/-- `requests.HTTPAdapter()` as mounted by `Session.__init__`. -/
def defaultAdapter : HTTPAdapter := { maxRetries := defaultAdapterPolicy }

/-- `HTTPAdapter(max_retries=retry_strategy)` built in `new_https`. -/
def retryAdapter : HTTPAdapter := { maxRetries := retry_strategy }

/-- A `requests.Session`: its ordered mapping of URL-scheme mount points
to adapters (longest mount point first, as `Session.mount` maintains). -/
structure Session where
  adapters : List (String × HTTPAdapter)
deriving DecidableEq

/-- `Session.mount(prefix, adapter)`: insert or replace the entry, then
move every strictly shorter mount point behind it (CPython keeps relative
order within both groups). -/
def Session.mount (s : Session) (pt : String) (a : HTTPAdapter) : Session :=
  let updated :=
    if s.adapters.any (fun p => p.1 == pt) then
      s.adapters.map (fun p => if p.1 == pt then (p.1, a) else p)
    else s.adapters ++ [(pt, a)]
  { adapters :=
      updated.filter (fun p => !(p.1.length < pt.length))
        ++ updated.filter (fun p => p.1.length < pt.length) }

/-- `requests.Session()`: mounts the default adapter for `https://` and
then `http://`. -/
def sessionInit : Session :=
  (Session.mount { adapters := [] } "https://" defaultAdapter).mount "http://" defaultAdapter

/-- `new_https()` (src lines 12-20): a fresh session with the retry
adapter mounted for `https://` only. -/
def new_https : Session := sessionInit.mount "https://" retryAdapter

/-- `Session.get_adapter(url)`: the first adapter whose mount point is a
case-insensitive prefix of the URL (`none` models `InvalidSchema`). -/
def Session.get_adapter (s : Session) (url : String) : Option HTTPAdapter :=
  match s.adapters.find? (fun p => listStartsWith (lowerList p.1) (lowerList url)) with
  | some p => some p.2
  | none => none

/-! ### Command-line arguments and the fetchers -/

/-- Value of an endpoint-like argparse flag: a string when the flag was
given, or the `False` default from `read_args` (src lines 32-59). -/
inductive ArgVal where
  | url (s : String)
  | noEndpoint
deriving DecidableEq

/-- The string an `ArgVal` contributes to a URL: f-strings and
`requests`' `prepare_url` both stringify, and `str(False) = "False"`. -/
def strOfArg : ArgVal → String
  | ArgVal.url s => s
  | ArgVal.noEndpoint => "False"

/-- What `urlparse` sees: its `_coerce_args`/`_decode_args` treat the
falsy non-string `False` as the empty string, so `urlparse(False)`
behaves like `urlparse("")`. -/
def coerceUrl : ArgVal → String
  | ArgVal.url s => s
  | ArgVal.noEndpoint => ""

/-- The gauge label used in the poll loop:
`urlparse(endpoint).hostname`, stringified by `prometheus_client`'s
`labels(...)` (so a missing host becomes the label `"None"`). -/
def labelValueOf (a : ArgVal) : String :=
  match urlparseHostname (coerceUrl a) with
  | some h => h
  | none => "None"

/-- The configuration produced by `read_args` (defaults from src lines
25-66; `port` and `freq` are carried for completeness but the poll loop's
observable behavior here does not depend on them). -/
structure Config where
  bor : ArgVal
  heimdall : ArgVal
  staking : ArgVal
  validator : ArgVal
  port : Int := 9099
  freq : Int := 300
deriving DecidableEq

/-- All endpoint flags at their `False` defaults. -/
def defaultConfig : Config :=
  { bor := ArgVal.noEndpoint
    heimdall := ArgVal.noEndpoint
    staking := ArgVal.noEndpoint
    validator := ArgVal.noEndpoint }

/-- The JSON-RPC payload posted by `get_bor_height` (src lines 75-80). -/
def borPayload : Json :=
  Json.obj
    [("jsonrpc", Json.str "2.0"),
     ("method", Json.str "eth_getBlockByNumber"),
     ("params", Json.arr [Json.str "latest", Json.bool true]),
     ("id", Json.num 1)]

/-- The POST issued by `get_bor_height`. -/
def borRequest (endpoint : ArgVal) : Request :=
  { method := "POST", url := strOfArg endpoint, jsonBody := some borPayload }

/-- The GET issued by `get_heimdall_height` (src line 97). -/
def heimdallRequest (endpoint : ArgVal) : Request :=
  { method := "GET", url := strOfArg endpoint ++ "/checkpoints/latest" }

/-- The GET issued by `get_local_height` (src line 114). -/
def localRequest (endpoint validator : ArgVal) : Request :=
  { method := "GET"
    url := strOfArg endpoint ++ "/api/v2/validators/" ++ strOfArg validator
      ++ "/checkpoints-signed?limit=1&offset=0" }

/-- `resp.json()`: the decoded body, or a raised `JSONDecodeError`. -/
def respJson : Option Json → Except PyErr Json
  | some j => Except.ok j
  | none => Except.error PyErr.jsonDecodeError

/-- `get_bor_height` (src lines 70-91): transport exceptions and non-200
statuses soft-fail to `0.0`; on 200 the body is parsed as
`int(data["result"]["number"], 16)` converted to float, and any error on
that path propagates (it is outside the `try`). -/
def get_bor_height (endpoint : ArgVal) (net : Request → HttpResult) : Except PyErr Rat :=
  match sessionSend net (borRequest endpoint) with
  | HttpResult.exn => Except.ok 0
  | HttpResult.resp status body =>
    if status = 200 then
      match respJson body with
      | Except.error e => Except.error e
      | Except.ok data =>
        match data.getKey "result" with
        | Except.error e => Except.error e
        | Except.ok r =>
          match r.getKey "number" with
          | Except.error e => Except.error e
          | Except.ok blockhex =>
            match pyInt16 blockhex with
            | Except.error e => Except.error e
            | Except.ok block => Except.ok ((block : Int) : Rat)
    else Except.ok 0

/-- `get_heimdall_height` (src lines 94-107): soft-fails to `(0.0, 0.0)`;
on 200 returns `(float(data["height"]), float(data["result"]["id"]))`
(the duplicate dictionary accesses on src lines 103-105 are pure and are
performed once here). -/
def get_heimdall_height (endpoint : ArgVal) (net : Request → HttpResult) :
    Except PyErr (Rat × Rat) :=
  match sessionSend net (heimdallRequest endpoint) with
  | HttpResult.exn => Except.ok (0, 0)
  | HttpResult.resp status body =>
    if status = 200 then
      match respJson body with
      | Except.error e => Except.error e
      | Except.ok data =>
        match data.getKey "height" with
        | Except.error e => Except.error e
        | Except.ok ht =>
          match data.getKey "result" with
          | Except.error e => Except.error e
          | Except.ok r =>
            match r.getKey "id" with
            | Except.error e => Except.error e
            | Except.ok cp =>
              match pyFloat ht with
              | Except.error e => Except.error e
              | Except.ok a =>
                match pyFloat cp with
                | Except.error e => Except.error e
                | Except.ok b => Except.ok (a, b)
    else Except.ok (0, 0)

/-- `get_local_height` (src lines 110-123): soft-fails to `0.0`; on 200
returns `float(data["result"][0]["checkpointNumber"])`. -/
def get_local_height (endpoint validator : ArgVal) (net : Request → HttpResult) :
    Except PyErr Rat :=
  match sessionSend net (localRequest endpoint validator) with
  | HttpResult.exn => Except.ok 0
  | HttpResult.resp status body =>
    if status = 200 then
      match respJson body with
      | Except.error e => Except.error e
      | Except.ok data =>
        match data.getKey "result" with
        | Except.error e => Except.error e
        | Except.ok r =>
          match r.getIdx0 with
          | Except.error e => Except.error e
          | Except.ok first =>
            match first.getKey "checkpointNumber" with
            | Except.error e => Except.error e
            | Except.ok cn =>
              match pyFloat cn with
              | Except.error e => Except.error e
              | Except.ok v => Except.ok v
    else Except.ok 0

/-! ### Gauges and the poll loop -/

/-- A labeled Prometheus gauge: label value ↦ stored reading, in
first-labeled order (`labels(...).set(v)` creates the child on first use
and overwrites its value in place afterwards). -/
abbrev Gauge := List (String × Rat)

/-- Overwrite the entry for an existing label. -/
def gaugeReplace (label : String) (v : Rat) (p : String × Rat) : String × Rat :=
  if p.1 == label then (p.1, v) else p

/-- `gauge.labels(label).set(v)`. -/
def Gauge.set (g : Gauge) (label : String) (v : Rat) : Gauge :=
  if g.any (fun p => p.1 == label) then g.map (gaugeReplace label v)
  else g ++ [(label, v)]

/-- Prometheus metric names registered at startup (src lines 136-155). -/
def borGaugeName : String := "polygon_latest_bor_height"

def heimdallGaugeName : String := "polygon_latest_heimdall_height"

def checkpointGaugeName : String := "polygon_latest_checkpoint_height"

def localGaugeName : String := "polygon_local_checkpoint_height"

/-- The four gauges of the registry. -/
structure Metrics where
  bor : Gauge
  heimdall : Gauge
  checkpoint : Gauge
  localCp : Gauge
deriving DecidableEq

/-- The registry right after startup: all gauges unlabeled and empty. -/
def emptyMetrics : Metrics := { bor := [], heimdall := [], checkpoint := [], localCp := [] }

/-- Observable effects of one loop body after the three fetches
succeeded: the new registry, the four stdout lines (tag, printed value),
and — for reachability claims — every `labels(...)` call performed, as
(metric name, label value). -/
structure CycleOut where
  metrics : Metrics
  lines : List (String × Rat)
  labelsUsed : List (String × String)
deriving DecidableEq

/-- The pure tail of the loop body (src lines 160-173): print the four
readings, then update each gauge only when its reading is strictly
greater than 1, labeling with the configured endpoint's hostname (the
checkpoint gauge reuses the heimdall endpoint's hostname). -/
def cycleStep (cfg : Config) (m : Metrics) (bor_height heimdall_height checkpoint_height local_height : Rat) : CycleOut :=
  { metrics :=
      { bor :=
          if 1 < bor_height then
            Gauge.set m.bor (labelValueOf cfg.bor) bor_height
          else m.bor
        heimdall :=
          if 1 < heimdall_height then
            Gauge.set m.heimdall (labelValueOf cfg.heimdall) heimdall_height
          else m.heimdall
        checkpoint :=
          if 1 < checkpoint_height then
            Gauge.set m.checkpoint (labelValueOf cfg.heimdall) checkpoint_height
          else m.checkpoint
        localCp :=
          if 1 < local_height then
            Gauge.set m.localCp (labelValueOf cfg.staking) local_height
          else m.localCp }
    lines :=
      [("Bor", bor_height), ("Heimdall", heimdall_height),
       ("Checkpoint", checkpoint_height), ("Local", local_height)]
    labelsUsed :=
      (if 1 < bor_height then [(borGaugeName, labelValueOf cfg.bor)] else [])
        ++ (if 1 < heimdall_height then [(heimdallGaugeName, labelValueOf cfg.heimdall)] else [])
        ++ (if 1 < checkpoint_height then [(checkpointGaugeName, labelValueOf cfg.heimdall)] else [])
        ++ (if 1 < local_height then [(localGaugeName, labelValueOf cfg.staking)] else []) }

/-- One iteration of the `while True` loop (src lines 156-174): the three
fetchers run sequentially, any exception escaping a fetcher aborts the
cycle (and the process), otherwise the pure tail runs. -/
def pollCycle (cfg : Config) (net : Request → HttpResult) (m : Metrics) :
    Except PyErr CycleOut :=
  match get_bor_height cfg.bor net with
  | Except.error e => Except.error e
  | Except.ok bor_height =>
    match get_heimdall_height cfg.heimdall net with
    | Except.error e => Except.error e
    | Except.ok (heimdall_height, checkpoint_height) =>
      match get_local_height cfg.staking cfg.validator net with
      | Except.error e => Except.error e
      | Except.ok local_height =>
        Except.ok (cycleStep cfg m bor_height heimdall_height checkpoint_height local_height)

/-- `n` consecutive poll cycles against a fixed network oracle, returning
the final registry and each cycle's observable output; an escaped
exception in any cycle terminates the run. -/
def runCycles (cfg : Config) (net : Request → HttpResult) :
    Nat → Metrics → Except PyErr (Metrics × List CycleOut)
  | 0, m => Except.ok (m, [])
  | n + 1, m =>
    match pollCycle cfg net m with
    | Except.error e => Except.error e
    | Except.ok o =>
      match runCycles cfg net n o.metrics with
      | Except.error e => Except.error e
      | Except.ok (mfin, outs) => Except.ok (mfin, o :: outs)

/-! ### Concrete fixtures (endpoints, bodies, oracles) used by witnesses
and counterexamples -/

/-- The bor response body from the spec's example: result.number `0x1a`. -/
def borBody26 : Json := Json.obj [("result", Json.obj [("number", Json.str "0x1a")])]

/-- The heimdall response body from the spec's example. -/
def heimdallBody100 : Json :=
  Json.obj [("height", Json.num 100), ("result", Json.obj [("id", Json.num 55)])]

/-- The staking response body from the spec's example. -/
def localBody42 : Json :=
  Json.obj [("result", Json.arr [Json.obj [("checkpointNumber", Json.num 42)]])]

/-- A fully configured endpoint set. -/
def cfgW : Config :=
  { bor := ArgVal.url "https://bor.example"
    heimdall := ArgVal.url "https://heimdall.example"
    staking := ArgVal.url "https://staking.example"
    validator := ArgVal.url "42" }

/-- A network oracle serving the three example bodies at status 200. -/
def netW : Request → HttpResult := fun r =>
  if r.url == "https://bor.example" then HttpResult.resp 200 (some borBody26)
  else if r.url == "https://heimdall.example/checkpoints/latest" then
    HttpResult.resp 200 (some heimdallBody100)
  else if r.url == "https://staking.example/api/v2/validators/42/checkpoints-signed?limit=1&offset=0" then
    HttpResult.resp 200 (some localBody42)
  else HttpResult.exn

/-- An oracle answering every request the same way. -/
def constNet (r : HttpResult) : Request → HttpResult := fun _ => r

/-- A responsive oracle used to show that defaulted endpoint flags ignore
the network entirely. -/
def liveNet : Request → HttpResult := fun _ => HttpResult.resp 200 (some borBody26)

/-- A configured endpoint whose hostname is just `x`. -/
def epOK : ArgVal := ArgVal.url "https://x"

/-- Like `netW` but the staking endpoint returns an empty `result` list. -/
def netEmptyLocal : Request → HttpResult := fun r =>
  if r.url == "https://bor.example" then HttpResult.resp 200 (some borBody26)
  else if r.url == "https://heimdall.example/checkpoints/latest" then
    HttpResult.resp 200 (some heimdallBody100)
  else if r.url == "https://staking.example/api/v2/validators/42/checkpoints-signed?limit=1&offset=0" then
    HttpResult.resp 200 (some (Json.obj [("result", Json.arr [])]))
  else HttpResult.exn

/-- The observable output of a cycle in which every fetch soft-failed. -/
def quietCycleOut : CycleOut :=
  { metrics := emptyMetrics
    lines := [("Bor", 0), ("Heimdall", 0), ("Checkpoint", 0), ("Local", 0)]
    labelsUsed := [] }

/-- The number of fetch functions the loop body invokes each cycle:
`get_bor_height`, `get_heimdall_height`, `get_local_height`
(src lines 157-159). -/
def pollLoopFetcherCount : Nat := 3

/-! ### Gauge lemmas -/

theorem gaugeReplace_key (label : String) (v : Rat) (p : String × Rat) :
    (gaugeReplace label v p).1 = p.1 := by
  unfold gaugeReplace
  split <;> rfl

theorem any_map_gaugeReplace (g : Gauge) (label l2 : String) (v : Rat) :
    (g.map (gaugeReplace label v)).any (fun p => p.1 == l2)
      = g.any (fun p => p.1 == l2) := by
  induction g with
  | nil => rfl
  | cons p t ih => simp [List.any_cons, ih, gaugeReplace_key]

theorem gaugeReplace_idem (label : String) (v : Rat) (p : String × Rat) :
    gaugeReplace label v (gaugeReplace label v p) = gaugeReplace label v p := by
  unfold gaugeReplace
  by_cases h : (p.1 == label) = true <;> simp [h]

theorem map_gaugeReplace_of_not_mem (g : Gauge) (label : String) (v : Rat)
    (h : g.any (fun p => p.1 == label) = false) :
    g.map (gaugeReplace label v) = g := by
  induction g with
  | nil => rfl
  | cons p t ih =>
    rw [List.any_cons, Bool.or_eq_false_iff] at h
    simp [gaugeReplace, h.1, ih h.2]

theorem gaugeSet_idem (g : Gauge) (label : String) (v : Rat) :
    Gauge.set (Gauge.set g label v) label v = Gauge.set g label v := by
  by_cases hm : g.any (fun p => p.1 == label) = true
  · have h1 : Gauge.set g label v = g.map (gaugeReplace label v) := by
      unfold Gauge.set
      rw [if_pos hm]
    have h2 : (g.map (gaugeReplace label v)).any (fun p => p.1 == label) = true := by
      rw [any_map_gaugeReplace]
      exact hm
    rw [h1]
    unfold Gauge.set
    rw [if_pos h2, List.map_map]
    refine List.map_congr_left ?_
    intro p _
    exact gaugeReplace_idem label v p
  · have hm2 : g.any (fun p => p.1 == label) = false := by
      cases h : g.any (fun p => p.1 == label) with
      | true => exact absurd h hm
      | false => rfl
    have h1 : Gauge.set g label v = g ++ [(label, v)] := by
      unfold Gauge.set
      rw [if_neg hm]
    have h2 : ((g ++ [(label, v)]).any (fun p => p.1 == label)) = true := by
      simp [List.any_append]
    rw [h1]
    unfold Gauge.set
    rw [if_pos h2, List.map_append, map_gaugeReplace_of_not_mem g label v hm2]
    simp [gaugeReplace]

/-! ### Poll-cycle lemmas -/

theorem pollCycle_eq (cfg : Config) (net : Request → HttpResult) (m : Metrics)
    {rb rh rc rl : Rat}
    (hb : get_bor_height cfg.bor net = Except.ok rb)
    (hh : get_heimdall_height cfg.heimdall net = Except.ok (rh, rc))
    (hl : get_local_height cfg.staking cfg.validator net = Except.ok rl) :
    pollCycle cfg net m = Except.ok (cycleStep cfg m rb rh rc rl) := by
  unfold pollCycle
  rw [hb, hh, hl]

theorem pollCycle_ok_inv {cfg : Config} {net : Request → HttpResult} {m : Metrics}
    {o : CycleOut} (h : pollCycle cfg net m = Except.ok o) :
    ∃ rb rh rc rl,
      get_bor_height cfg.bor net = Except.ok rb ∧
      get_heimdall_height cfg.heimdall net = Except.ok (rh, rc) ∧
      get_local_height cfg.staking cfg.validator net = Except.ok rl ∧
      o = cycleStep cfg m rb rh rc rl := by
  cases hb : get_bor_height cfg.bor net with
  | error e =>
    have hcontra : pollCycle cfg net m = Except.error e := by
      unfold pollCycle
      rw [hb]
    rw [hcontra] at h
    exact Except.noConfusion h
  | ok rb =>
    cases hh : get_heimdall_height cfg.heimdall net with
    | error e =>
      have hcontra : pollCycle cfg net m = Except.error e := by
        unfold pollCycle
        rw [hb, hh]
      rw [hcontra] at h
      exact Except.noConfusion h
    | ok pr =>
      obtain ⟨rh, rc⟩ := pr
      cases hl : get_local_height cfg.staking cfg.validator net with
      | error e =>
        have hcontra : pollCycle cfg net m = Except.error e := by
          unfold pollCycle
          rw [hb, hh, hl]
        rw [hcontra] at h
        exact Except.noConfusion h
      | ok rl =>
        have heq : pollCycle cfg net m = Except.ok (cycleStep cfg m rb rh rc rl) :=
          pollCycle_eq cfg net m hb hh hl
        rw [heq] at h
        exact ⟨rb, rh, rc, rl, rfl, rfl, rfl, (Except.ok.inj h).symm⟩

theorem cycleStep_stable (cfg : Config) (m : Metrics) (rb rh rc rl : Rat) :
    cycleStep cfg (cycleStep cfg m rb rh rc rl).metrics rb rh rc rl
      = cycleStep cfg m rb rh rc rl := by
  by_cases h1 : (1 : Rat) < rb <;> by_cases h2 : (1 : Rat) < rh <;>
    by_cases h3 : (1 : Rat) < rc <;> by_cases h4 : (1 : Rat) < rl <;>
    simp [cycleStep, h1, h2, h3, h4, gaugeSet_idem]

/-! ### Claim theorems -/

/-- C2: for every endpoint string, `get_bor_height` returns `0.0` when
the session-level POST raises a transport exception, returns `0.0` on any
non-200 status, and on a 200 response with body
`{"result":{"number":"0x1a"}}` returns `26.0` (hex-parsing
`result.number`). -/
theorem bor_fetcher_spec (endpoint : String) (net : Request → HttpResult) :
    (sessionSend net (borRequest (ArgVal.url endpoint)) = HttpResult.exn →
      get_bor_height (ArgVal.url endpoint) net = Except.ok 0) ∧
    (∀ st body, sessionSend net (borRequest (ArgVal.url endpoint)) = HttpResult.resp st body →
      st ≠ 200 → get_bor_height (ArgVal.url endpoint) net = Except.ok 0) ∧
    (sessionSend net (borRequest (ArgVal.url endpoint)) = HttpResult.resp 200 (some borBody26) →
      get_bor_height (ArgVal.url endpoint) net = Except.ok 26) := by
  refine ⟨?_, ?_, ?_⟩
  · intro h
    unfold get_bor_height
    rw [h]
  · intro st body h hne
    unfold get_bor_height
    rw [h]
    exact if_neg hne
  · intro h
    unfold get_bor_height
    rw [h]
    decide

/-- Witness for C2 at concrete oracles: the example body yields 26, a
transport exception and a 500 both yield the sentinel. -/
theorem bor_fetcher_spec_witness :
    get_bor_height (ArgVal.url "https://bor.example") netW = Except.ok 26 ∧
    get_bor_height (ArgVal.url "https://bor.example") (constNet HttpResult.exn) = Except.ok 0 ∧
    get_bor_height (ArgVal.url "https://bor.example") (constNet (HttpResult.resp 500 none)) = Except.ok 0 :=
  ⟨(bor_fetcher_spec "https://bor.example" netW).2.2 rfl,
   (bor_fetcher_spec "https://bor.example" (constNet HttpResult.exn)).1 rfl,
   (bor_fetcher_spec "https://bor.example" (constNet (HttpResult.resp 500 none))).2.1 500 none rfl
     (by decide)⟩

/-- C3: for every endpoint string, `get_heimdall_height` returns
`(0.0, 0.0)` on a transport exception and on any non-200 status, and on a
200 response with body `{"height":100,"result":{"id":55}}` returns
`(100.0, 55.0)`. -/
theorem heimdall_fetcher_spec (endpoint : String) (net : Request → HttpResult) :
    (sessionSend net (heimdallRequest (ArgVal.url endpoint)) = HttpResult.exn →
      get_heimdall_height (ArgVal.url endpoint) net = Except.ok (0, 0)) ∧
    (∀ st body, sessionSend net (heimdallRequest (ArgVal.url endpoint)) = HttpResult.resp st body →
      st ≠ 200 → get_heimdall_height (ArgVal.url endpoint) net = Except.ok (0, 0)) ∧
    (sessionSend net (heimdallRequest (ArgVal.url endpoint)) = HttpResult.resp 200 (some heimdallBody100) →
      get_heimdall_height (ArgVal.url endpoint) net = Except.ok (100, 55)) := by
  refine ⟨?_, ?_, ?_⟩
  · intro h
    unfold get_heimdall_height
    rw [h]
  · intro st body h hne
    unfold get_heimdall_height
    rw [h]
    exact if_neg hne
  · intro h
    unfold get_heimdall_height
    rw [h]
    decide

/-- Witness for C3 at concrete oracles. -/
theorem heimdall_fetcher_spec_witness :
    get_heimdall_height (ArgVal.url "https://heimdall.example") netW = Except.ok (100, 55) ∧
    get_heimdall_height (ArgVal.url "https://heimdall.example") (constNet HttpResult.exn) = Except.ok (0, 0) ∧
    get_heimdall_height (ArgVal.url "https://heimdall.example") (constNet (HttpResult.resp 503 none)) = Except.ok (0, 0) :=
  ⟨(heimdall_fetcher_spec "https://heimdall.example" netW).2.2 rfl,
   (heimdall_fetcher_spec "https://heimdall.example" (constNet HttpResult.exn)).1 rfl,
   (heimdall_fetcher_spec "https://heimdall.example" (constNet (HttpResult.resp 503 none))).2.1 503 none rfl
     (by decide)⟩

/-- C4: for every staking endpoint and validator identifier,
`get_local_height` returns `0.0` on a transport exception and on any
non-200 status, and on a 200 response with body
`{"result":[{"checkpointNumber":42}]}` returns `42.0`. -/
theorem local_fetcher_spec (endpoint validator : String) (net : Request → HttpResult) :
    (sessionSend net (localRequest (ArgVal.url endpoint) (ArgVal.url validator)) = HttpResult.exn →
      get_local_height (ArgVal.url endpoint) (ArgVal.url validator) net = Except.ok 0) ∧
    (∀ st body,
      sessionSend net (localRequest (ArgVal.url endpoint) (ArgVal.url validator)) = HttpResult.resp st body →
      st ≠ 200 → get_local_height (ArgVal.url endpoint) (ArgVal.url validator) net = Except.ok 0) ∧
    (sessionSend net (localRequest (ArgVal.url endpoint) (ArgVal.url validator)) = HttpResult.resp 200 (some localBody42) →
      get_local_height (ArgVal.url endpoint) (ArgVal.url validator) net = Except.ok 42) := by
  refine ⟨?_, ?_, ?_⟩
  · intro h
    unfold get_local_height
    rw [h]
  · intro st body h hne
    unfold get_local_height
    rw [h]
    exact if_neg hne
  · intro h
    unfold get_local_height
    rw [h]
    decide

/-- Witness for C4 at concrete oracles. -/
theorem local_fetcher_spec_witness :
    get_local_height (ArgVal.url "https://staking.example") (ArgVal.url "42") netW = Except.ok 42 ∧
    get_local_height (ArgVal.url "https://staking.example") (ArgVal.url "42") (constNet HttpResult.exn) = Except.ok 0 ∧
    get_local_height (ArgVal.url "https://staking.example") (ArgVal.url "42") (constNet (HttpResult.resp 404 none)) = Except.ok 0 :=
  ⟨(local_fetcher_spec "https://staking.example" "42" netW).2.2 rfl,
   (local_fetcher_spec "https://staking.example" "42" (constNet HttpResult.exn)).1 rfl,
   (local_fetcher_spec "https://staking.example" "42" (constNet (HttpResult.resp 404 none))).2.1 404 none rfl
     (by decide)⟩

/-- C5: payload-shape errors on a 200 response are not caught by the
fetchers' exception guards: an invalid JSON body, missing
`result`/`number`/`height`/`id`/`checkpointNumber` fields, a non-string
`result.number`, and an empty `result` list all surface as raised
exceptions (`Except.error`), and such an exception propagates through the
poll loop and terminates the run — while a transport exception at the
same endpoint soft-fails to the sentinel. -/
theorem payload_errors_propagate :
    get_bor_height epOK (constNet (HttpResult.resp 200 none)) = Except.error PyErr.jsonDecodeError ∧
    get_bor_height epOK (constNet (HttpResult.resp 200 (some (Json.obj [])))) = Except.error (PyErr.keyError "result") ∧
    get_bor_height epOK (constNet (HttpResult.resp 200 (some (Json.obj [("result", Json.obj [])])))) = Except.error (PyErr.keyError "number") ∧
    get_bor_height epOK (constNet (HttpResult.resp 200 (some (Json.obj [("result", Json.obj [("number", Json.num 26)])])))) = Except.error PyErr.typeError ∧
    get_bor_height epOK (constNet (HttpResult.resp 200 (some (Json.obj [("result", Json.obj [("number", Json.str "xyz")])])))) = Except.error PyErr.valueError ∧
    get_heimdall_height epOK (constNet (HttpResult.resp 200 (some (Json.obj [("result", Json.obj [("id", Json.num 55)])])))) = Except.error (PyErr.keyError "height") ∧
    get_heimdall_height epOK (constNet (HttpResult.resp 200 (some (Json.obj [("height", Json.num 100), ("result", Json.obj [])])))) = Except.error (PyErr.keyError "id") ∧
    get_local_height epOK (ArgVal.url "55") (constNet (HttpResult.resp 200 (some (Json.obj [("result", Json.arr [])])))) = Except.error PyErr.indexError ∧
    runCycles cfgW netEmptyLocal 1 emptyMetrics = Except.error PyErr.indexError ∧
    get_bor_height epOK (constNet HttpResult.exn) = Except.ok 0 := by
  refine ⟨?_, ?_, ?_, ?_, ?_, ?_, ?_, ?_, ?_, ?_⟩ <;> decide

/-- C1: in a completed poll cycle with readings `rb`, `(rh, rc)`, `rl`,
each of the four gauges is set to its freshly fetched reading, labeled by
the configured endpoint's hostname, exactly when that reading is strictly
greater than 1; otherwise (readings 0 or 1, and failed fetches, which
surface as the 0 sentinel) the gauge keeps its previous contents. -/
theorem gauge_update_iff (cfg : Config) (net : Request → HttpResult) (m : Metrics)
    (o : CycleOut) (rb rh rc rl : Rat)
    (hb : get_bor_height cfg.bor net = Except.ok rb)
    (hh : get_heimdall_height cfg.heimdall net = Except.ok (rh, rc))
    (hl : get_local_height cfg.staking cfg.validator net = Except.ok rl)
    (h : pollCycle cfg net m = Except.ok o) :
    o.metrics.bor = (if 1 < rb then Gauge.set m.bor (labelValueOf cfg.bor) rb else m.bor) ∧
    o.metrics.heimdall = (if 1 < rh then Gauge.set m.heimdall (labelValueOf cfg.heimdall) rh else m.heimdall) ∧
    o.metrics.checkpoint = (if 1 < rc then Gauge.set m.checkpoint (labelValueOf cfg.heimdall) rc else m.checkpoint) ∧
    o.metrics.localCp = (if 1 < rl then Gauge.set m.localCp (labelValueOf cfg.staking) rl else m.localCp) := by
  rw [pollCycle_eq cfg net m hb hh hl] at h
  have ho := Except.ok.inj h
  subst ho
  exact ⟨rfl, rfl, rfl, rfl⟩

/-- Witness for C1: a concrete cycle in which all four readings exceed 1
and all four gauges take them, labeled by the endpoints' hostnames. -/
theorem gauge_update_iff_witness :
    (cycleStep cfgW emptyMetrics 26 100 55 42).metrics.bor
        = (if (1 : Rat) < 26 then Gauge.set emptyMetrics.bor (labelValueOf cfgW.bor) 26 else emptyMetrics.bor) ∧
    (cycleStep cfgW emptyMetrics 26 100 55 42).metrics.heimdall
        = (if (1 : Rat) < 100 then Gauge.set emptyMetrics.heimdall (labelValueOf cfgW.heimdall) 100 else emptyMetrics.heimdall) ∧
    (cycleStep cfgW emptyMetrics 26 100 55 42).metrics.checkpoint
        = (if (1 : Rat) < 55 then Gauge.set emptyMetrics.checkpoint (labelValueOf cfgW.heimdall) 55 else emptyMetrics.checkpoint) ∧
    (cycleStep cfgW emptyMetrics 26 100 55 42).metrics.localCp
        = (if (1 : Rat) < 42 then Gauge.set emptyMetrics.localCp (labelValueOf cfgW.staking) 42 else emptyMetrics.localCp) :=
  gauge_update_iff cfgW netW emptyMetrics (cycleStep cfgW emptyMetrics 26 100 55 42)
    26 100 55 42 (by decide) (by decide) (by decide) (by decide)

/-- C7: repeated cycles against an unchanging network oracle are
idempotent on the metrics state: once a cycle has completed with output
`o`, every number of further cycles leaves the registry at `o.metrics`
and reproduces exactly the same observable output each time. -/
theorem poll_idempotent (cfg : Config) (net : Request → HttpResult) (m : Metrics)
    (o : CycleOut) (h : pollCycle cfg net m = Except.ok o) (n : Nat) :
    runCycles cfg net n o.metrics = Except.ok (o.metrics, List.replicate n o) := by
  obtain ⟨rb, rh, rc, rl, hb, hh, hl, ho⟩ := pollCycle_ok_inv h
  have hstab : pollCycle cfg net o.metrics = Except.ok o := by
    subst ho
    rw [pollCycle_eq cfg net _ hb hh hl, cycleStep_stable]
  induction n with
  | zero => rfl
  | succ k ih => simp [runCycles, hstab, ih, List.replicate_succ]

/-- Witness for C7: the example cycle, then three further cycles that
leave every gauge label/value pair exactly in place. -/
theorem poll_idempotent_witness :
    runCycles cfgW netW 3 (cycleStep cfgW emptyMetrics 26 100 55 42).metrics
      = Except.ok ((cycleStep cfgW emptyMetrics 26 100 55 42).metrics,
          List.replicate 3 (cycleStep cfgW emptyMetrics 26 100 55 42)) :=
  poll_idempotent cfgW netW emptyMetrics (cycleStep cfgW emptyMetrics 26 100 55 42)
    (by decide) 3

/-- Counterexample to C8 as stated: the loop body invokes three fetchers
(`pollLoopFetcherCount`) but writes four stdout lines per cycle — the
`Heimdall` and `Checkpoint` lines (indices 1 and 2) both report
components of the single pair extracted by `get_heimdall_height` — so it
is false that exactly one line is written per fetcher. -/
theorem output_lines_counterexample :
    pollCycle cfgW netW emptyMetrics = Except.ok (cycleStep cfgW emptyMetrics 26 100 55 42) ∧
    (cycleStep cfgW emptyMetrics 26 100 55 42).lines
      = [("Bor", 26), ("Heimdall", 100), ("Checkpoint", 55), ("Local", 42)] ∧
    get_heimdall_height cfgW.heimdall netW = Except.ok (100, 55) ∧
    (cycleStep cfgW emptyMetrics 26 100 55 42).lines.length = 4 ∧
    pollLoopFetcherCount = 3 ∧
    (cycleStep cfgW emptyMetrics 26 100 55 42).lines.length ≠ pollLoopFetcherCount := by
  refine ⟨?_, ?_, ?_, ?_, ?_, ?_⟩ <;> decide

/-- C8 as amended: every completed poll cycle writes exactly four stdout
lines — bor height, heimdall height, checkpoint number (the latter two
both extracted by the heimdall fetcher) and local checkpoint — each
reporting the raw extracted value (a failed fetch printing its 0
sentinel). -/
theorem output_lines_amended (cfg : Config) (net : Request → HttpResult) (m : Metrics)
    (o : CycleOut) (rb rh rc rl : Rat)
    (hb : get_bor_height cfg.bor net = Except.ok rb)
    (hh : get_heimdall_height cfg.heimdall net = Except.ok (rh, rc))
    (hl : get_local_height cfg.staking cfg.validator net = Except.ok rl)
    (h : pollCycle cfg net m = Except.ok o) :
    o.lines = [("Bor", rb), ("Heimdall", rh), ("Checkpoint", rc), ("Local", rl)]
      ∧ o.lines.length = 4 := by
  rw [pollCycle_eq cfg net m hb hh hl] at h
  have ho := Except.ok.inj h
  subst ho
  exact ⟨rfl, rfl⟩

/-- Witness for the amended C8: a cycle where every fetch succeeds and
one where every fetch soft-fails both write their four lines. -/
theorem output_lines_amended_witness :
    (cycleStep cfgW emptyMetrics 26 100 55 42).lines
        = [("Bor", 26), ("Heimdall", 100), ("Checkpoint", 55), ("Local", 42)] ∧
    (cycleStep cfgW emptyMetrics 26 100 55 42).lines.length = 4 ∧
    (cycleStep cfgW emptyMetrics 0 0 0 0).lines
        = [("Bor", 0), ("Heimdall", 0), ("Checkpoint", 0), ("Local", 0)] ∧
    (cycleStep cfgW emptyMetrics 0 0 0 0).lines.length = 4 :=
  ⟨(output_lines_amended cfgW netW emptyMetrics (cycleStep cfgW emptyMetrics 26 100 55 42)
      26 100 55 42 (by decide) (by decide) (by decide) (by decide)).1,
   (output_lines_amended cfgW netW emptyMetrics (cycleStep cfgW emptyMetrics 26 100 55 42)
      26 100 55 42 (by decide) (by decide) (by decide) (by decide)).2,
   (output_lines_amended cfgW (constNet HttpResult.exn) emptyMetrics
      (cycleStep cfgW emptyMetrics 0 0 0 0) 0 0 0 0 (by decide) (by decide) (by decide) (by decide)).1,
   (output_lines_amended cfgW (constNet HttpResult.exn) emptyMetrics
      (cycleStep cfgW emptyMetrics 0 0 0 0) 0 0 0 0 (by decide) (by decide) (by decide) (by decide)).2⟩

/-- The default adapter's policy never triggers a status retry: its
`total` of 0 is falsy and its forcelist is empty. -/
theorem defaultPolicy_isRetry_false (method : String) (status : Nat) (hra : Bool) :
    defaultAdapterPolicy.isRetry method status hra = false := by
  unfold RetryPolicy.isRetry RetryPolicy.isMethodRetryable defaultAdapterPolicy
  by_cases hm : DEFAULT_ALLOWED_METHODS.contains method = true <;> simp [hm]

/-- Counterexample to C6 as stated: with the `retry_strategy` built by
`new_https`, a persistently failing connection is attempted 5 times (4
urllib3-level retries) before the failure propagates — not 0 retries as
the claim asserts for connection-level exceptions; moreover a POST (the
bor fetcher's method, absent from urllib3's default allowed methods) is
not retried even on a 500, and a GET answering 413 with a Retry-After
header is retried although 413 is not in the forcelist — so retries are
not triggered exactly on the configured status set either. -/
theorem retry_policy_counterexample :
    urlopen retry_strategy "GET" (fun _ => AttemptResult.connError) = FetchResult.maxRetryError 5 ∧
    urlopen retry_strategy "POST" (fun _ => AttemptResult.connError) = FetchResult.maxRetryError 5 ∧
    (5 : Nat) ≠ 1 ∧
    retry_strategy.isRetry "POST" 500 false = false ∧
    retry_strategy.statusForcelist.contains 500 = true ∧
    retry_strategy.isRetry "GET" 413 true = true ∧
    retry_strategy.statusForcelist.contains 413 = false := by
  refine ⟨?_, ?_, ?_, ?_, ?_, ?_, ?_⟩ <;> decide

/-- C6 as amended: `new_https`'s retry policy has a total budget of 4
retries (hence up to 5 attempts); a response triggers a retry exactly
when the method is in urllib3's default allowed set and the status is in
{104, 408, 425, 429, 500, 502, 503, 504}, or when a Retry-After header
accompanies a 413/429/503; and connection-level exceptions are retried
against the same total budget, the failure propagating to the caller
only after exhaustion (5 attempts), for any request method. -/
theorem retry_policy_amended :
    retry_strategy.total = 4 ∧
    retry_strategy.statusForcelist = [104, 408, 425, 429, 500, 502, 503, 504] ∧
    (∀ method status hra,
      retry_strategy.isRetry method status hra =
        (DEFAULT_ALLOWED_METHODS.contains method &&
          (retry_strategy.statusForcelist.contains status
            || (hra && RETRY_AFTER_STATUS_CODES.contains status)))) ∧
    (∀ method, urlopen retry_strategy method (fun _ => AttemptResult.connError)
        = FetchResult.maxRetryError 5) := by
  refine ⟨rfl, rfl, ?_, ?_⟩
  · intro method status hra
    unfold RetryPolicy.isRetry RetryPolicy.isMethodRetryable retry_strategy
    by_cases hm : DEFAULT_ALLOWED_METHODS.contains method = true <;>
      by_cases hs : ([104, 408, 425, 429, 500, 502, 503, 504] : List Nat).contains status = true <;>
      cases hra <;>
      simp [hm, hs]
  · intro method
    rfl

/-- C9: the retry adapter is mounted for `https://` only — a URL that
starts (case-insensitively) with `http://` and not with `https://` is
served by the default adapter, whose policy has a zero budget and never
triggers a status retry: whatever response the first attempt yields is
delivered as-is after exactly one attempt. -/
theorem http_requests_use_default_adapter (url : String)
    (h1 : listStartsWith (lowerList "http://") (lowerList url) = true)
    (h2 : listStartsWith (lowerList "https://") (lowerList url) = false) :
    new_https.get_adapter url = some defaultAdapter ∧
    defaultAdapter.maxRetries.total = 0 ∧
    (∀ method status hra, defaultAdapter.maxRetries.isRetry method status hra = false) ∧
    (∀ method script status hra, script 0 = AttemptResult.response status hra →
      urlopen defaultAdapter.maxRetries method script = FetchResult.got status 1) := by
  refine ⟨?_, rfl, ?_, ?_⟩
  · have hads : new_https.adapters = [("https://", retryAdapter), ("http://", defaultAdapter)] := by
      decide
    unfold Session.get_adapter
    rw [hads]
    simp [List.find?, h1, h2]
  · intro method status hra
    exact defaultPolicy_isRetry_false method status hra
  · intro method script status hra h0
    show urlopenSteps method script 2 defaultAdapterPolicy 0 = FetchResult.got status 1
    rw [show (2 : Nat) = 1 + 1 from rfl]
    rw [urlopenSteps]
    rw [h0]
    simp [defaultPolicy_isRetry_false]

/-- Witness for C9 at a concrete plain-`http://` URL, method and script. -/
theorem http_requests_use_default_adapter_witness :
    new_https.get_adapter "http://bor.example:8545" = some defaultAdapter ∧
    defaultAdapter.maxRetries.isRetry "GET" 500 false = false ∧
    urlopen defaultAdapter.maxRetries "GET" (fun _ => AttemptResult.response 500 false)
      = FetchResult.got 500 1 := by
  have h := http_requests_use_default_adapter "http://bor.example:8545" (by decide) (by decide)
  exact ⟨h.1, h.2.2.1 "GET" 500 false,
    h.2.2.2 "GET" (fun _ => AttemptResult.response 500 false) 500 false rfl⟩

/-- With the bor flag at its `False` default, the POST raises inside the
guard (no scheme) before any network I/O, so the fetch yields the
sentinel whatever the network would answer. -/
theorem get_bor_height_noEndpoint (net : Request → HttpResult) :
    get_bor_height ArgVal.noEndpoint net = Except.ok 0 := rfl

/-- With the heimdall flag at its default, the GET to
`False/checkpoints/latest` raises inside the guard. -/
theorem get_heimdall_height_noEndpoint (net : Request → HttpResult) :
    get_heimdall_height ArgVal.noEndpoint net = Except.ok (0, 0) := rfl

/-- With the staking flag at its default, the GET to `False/api/v2/...`
raises inside the guard for every validator value. -/
theorem get_local_height_noStaking (validator : ArgVal) (net : Request → HttpResult) :
    get_local_height ArgVal.noEndpoint validator net = Except.ok 0 := rfl

theorem pollCycle_bor_default {cfg : Config} {net : Request → HttpResult}
    {m : Metrics} {o : CycleOut} (hb : cfg.bor = ArgVal.noEndpoint)
    (h : pollCycle cfg net m = Except.ok o) :
    o.metrics.bor = m.bor ∧
    o.labelsUsed.all (fun p => !(p.1 == borGaugeName)) = true := by
  obtain ⟨rb, rh, rc, rl, hbf, hhf, hlf, ho⟩ := pollCycle_ok_inv h
  rw [hb, get_bor_height_noEndpoint] at hbf
  have hrb : rb = 0 := (Except.ok.inj hbf).symm
  subst ho
  subst hrb
  have h10 : ¬((1 : Rat) < 0) := by norm_num
  have e1 : (heimdallGaugeName == borGaugeName) = false := by decide
  have e2 : (checkpointGaugeName == borGaugeName) = false := by decide
  have e3 : (localGaugeName == borGaugeName) = false := by decide
  constructor
  · simp [cycleStep, h10]
  · by_cases h2 : (1 : Rat) < rh <;> by_cases h3 : (1 : Rat) < rc <;>
      by_cases h4 : (1 : Rat) < rl <;>
      simp [cycleStep, h10, h2, h3, h4, e1, e2, e3]

theorem pollCycle_heimdall_default {cfg : Config} {net : Request → HttpResult}
    {m : Metrics} {o : CycleOut} (hh : cfg.heimdall = ArgVal.noEndpoint)
    (h : pollCycle cfg net m = Except.ok o) :
    o.metrics.heimdall = m.heimdall ∧ o.metrics.checkpoint = m.checkpoint ∧
    o.labelsUsed.all (fun p => !(p.1 == heimdallGaugeName) && !(p.1 == checkpointGaugeName)) = true := by
  obtain ⟨rb, rh, rc, rl, hbf, hhf, hlf, ho⟩ := pollCycle_ok_inv h
  rw [hh, get_heimdall_height_noEndpoint] at hhf
  have hpair : ((0 : Rat), (0 : Rat)) = (rh, rc) := Except.ok.inj hhf
  have hrh : rh = 0 := (congrArg Prod.fst hpair).symm
  have hrc : rc = 0 := (congrArg Prod.snd hpair).symm
  subst ho
  subst hrh
  subst hrc
  have h10 : ¬((1 : Rat) < 0) := by norm_num
  have e1 : (borGaugeName == heimdallGaugeName) = false := by decide
  have e2 : (borGaugeName == checkpointGaugeName) = false := by decide
  have e3 : (localGaugeName == heimdallGaugeName) = false := by decide
  have e4 : (localGaugeName == checkpointGaugeName) = false := by decide
  refine ⟨?_, ?_, ?_⟩
  · simp [cycleStep, h10]
  · simp [cycleStep, h10]
  · by_cases h1 : (1 : Rat) < rb <;> by_cases h4 : (1 : Rat) < rl <;>
      simp [cycleStep, h10, h1, h4, e1, e2, e3, e4]

theorem pollCycle_staking_default {cfg : Config} {net : Request → HttpResult}
    {m : Metrics} {o : CycleOut} (hs : cfg.staking = ArgVal.noEndpoint)
    (h : pollCycle cfg net m = Except.ok o) :
    o.metrics.localCp = m.localCp ∧
    o.labelsUsed.all (fun p => !(p.1 == localGaugeName)) = true := by
  obtain ⟨rb, rh, rc, rl, hbf, hhf, hlf, ho⟩ := pollCycle_ok_inv h
  rw [hs, get_local_height_noStaking] at hlf
  have hrl : rl = 0 := (Except.ok.inj hlf).symm
  subst ho
  subst hrl
  have h10 : ¬((1 : Rat) < 0) := by norm_num
  have e1 : (borGaugeName == localGaugeName) = false := by decide
  have e2 : (heimdallGaugeName == localGaugeName) = false := by decide
  have e3 : (checkpointGaugeName == localGaugeName) = false := by decide
  constructor
  · simp [cycleStep, h10]
  · by_cases h1 : (1 : Rat) < rb <;> by_cases h2 : (1 : Rat) < rh <;>
      by_cases h3 : (1 : Rat) < rc <;>
      simp [cycleStep, h10, h1, h2, h3, e1, e2, e3]

theorem runCycles_bor_default {cfg : Config} {net : Request → HttpResult}
    (hb : cfg.bor = ArgVal.noEndpoint) :
    ∀ (n : Nat) (m : Metrics) (res : Metrics × List CycleOut),
      runCycles cfg net n m = Except.ok res →
      res.1.bor = m.bor ∧
        ∀ o ∈ res.2, o.metrics.bor = m.bor ∧
          o.labelsUsed.all (fun p => !(p.1 == borGaugeName)) = true := by
  intro n
  induction n with
  | zero =>
    intro m res h
    have h2 : (Except.ok (m, ([] : List CycleOut)) : Except PyErr (Metrics × List CycleOut))
        = Except.ok res := h
    have h3 := Except.ok.inj h2
    subst h3
    exact ⟨rfl, fun o ho => absurd ho (List.not_mem_nil o)⟩
  | succ k ih =>
    intro m res h
    cases hc : pollCycle cfg net m with
    | error e =>
      have hrun : runCycles cfg net (k + 1) m = Except.error e := by
        simp [runCycles, hc]
      rw [hrun] at h
      exact Except.noConfusion h
    | ok o =>
      cases hr : runCycles cfg net k o.metrics with
      | error e =>
        have hrun : runCycles cfg net (k + 1) m = Except.error e := by
          simp [runCycles, hc, hr]
        rw [hrun] at h
        exact Except.noConfusion h
      | ok pr =>
        obtain ⟨mf, outs⟩ := pr
        have hrun : runCycles cfg net (k + 1) m = Except.ok (mf, o :: outs) := by
          simp [runCycles, hc, hr]
        rw [hrun] at h
        have hres := Except.ok.inj h
        subst hres
        have hstep := pollCycle_bor_default hb hc
        have hrec := ih o.metrics (mf, outs) hr
        refine ⟨?_, ?_⟩
        · rw [show ((mf, o :: outs).1.bor) = mf.bor from rfl, hrec.1, hstep.1]
        · intro x hx
          rcases List.mem_cons.mp hx with hx1 | hx2
          · subst hx1
            exact hstep
          · have hx3 := hrec.2 x hx2
            exact ⟨by rw [hx3.1, hstep.1], hx3.2⟩

theorem runCycles_heimdall_default {cfg : Config} {net : Request → HttpResult}
    (hh : cfg.heimdall = ArgVal.noEndpoint) :
    ∀ (n : Nat) (m : Metrics) (res : Metrics × List CycleOut),
      runCycles cfg net n m = Except.ok res →
      res.1.heimdall = m.heimdall ∧ res.1.checkpoint = m.checkpoint ∧
        ∀ o ∈ res.2, o.metrics.heimdall = m.heimdall ∧ o.metrics.checkpoint = m.checkpoint ∧
          o.labelsUsed.all (fun p => !(p.1 == heimdallGaugeName) && !(p.1 == checkpointGaugeName)) = true := by
  intro n
  induction n with
  | zero =>
    intro m res h
    have h2 : (Except.ok (m, ([] : List CycleOut)) : Except PyErr (Metrics × List CycleOut))
        = Except.ok res := h
    have h3 := Except.ok.inj h2
    subst h3
    exact ⟨rfl, rfl, fun o ho => absurd ho (List.not_mem_nil o)⟩
  | succ k ih =>
    intro m res h
    cases hc : pollCycle cfg net m with
    | error e =>
      have hrun : runCycles cfg net (k + 1) m = Except.error e := by
        simp [runCycles, hc]
      rw [hrun] at h
      exact Except.noConfusion h
    | ok o =>
      cases hr : runCycles cfg net k o.metrics with
      | error e =>
        have hrun : runCycles cfg net (k + 1) m = Except.error e := by
          simp [runCycles, hc, hr]
        rw [hrun] at h
        exact Except.noConfusion h
      | ok pr =>
        obtain ⟨mf, outs⟩ := pr
        have hrun : runCycles cfg net (k + 1) m = Except.ok (mf, o :: outs) := by
          simp [runCycles, hc, hr]
        rw [hrun] at h
        have hres := Except.ok.inj h
        subst hres
        have hstep := pollCycle_heimdall_default hh hc
        have hrec := ih o.metrics (mf, outs) hr
        refine ⟨?_, ?_, ?_⟩
        · rw [show ((mf, o :: outs).1.heimdall) = mf.heimdall from rfl, hrec.1, hstep.1]
        · rw [show ((mf, o :: outs).1.checkpoint) = mf.checkpoint from rfl, hrec.2.1, hstep.2.1]
        · intro x hx
          rcases List.mem_cons.mp hx with hx1 | hx2
          · subst hx1
            exact hstep
          · have hx3 := hrec.2.2 x hx2
            exact ⟨by rw [hx3.1, hstep.1], by rw [hx3.2.1, hstep.2.1], hx3.2.2⟩

theorem runCycles_staking_default {cfg : Config} {net : Request → HttpResult}
    (hs : cfg.staking = ArgVal.noEndpoint) :
    ∀ (n : Nat) (m : Metrics) (res : Metrics × List CycleOut),
      runCycles cfg net n m = Except.ok res →
      res.1.localCp = m.localCp ∧
        ∀ o ∈ res.2, o.metrics.localCp = m.localCp ∧
          o.labelsUsed.all (fun p => !(p.1 == localGaugeName)) = true := by
  intro n
  induction n with
  | zero =>
    intro m res h
    have h2 : (Except.ok (m, ([] : List CycleOut)) : Except PyErr (Metrics × List CycleOut))
        = Except.ok res := h
    have h3 := Except.ok.inj h2
    subst h3
    exact ⟨rfl, fun o ho => absurd ho (List.not_mem_nil o)⟩
  | succ k ih =>
    intro m res h
    cases hc : pollCycle cfg net m with
    | error e =>
      have hrun : runCycles cfg net (k + 1) m = Except.error e := by
        simp [runCycles, hc]
      rw [hrun] at h
      exact Except.noConfusion h
    | ok o =>
      cases hr : runCycles cfg net k o.metrics with
      | error e =>
        have hrun : runCycles cfg net (k + 1) m = Except.error e := by
          simp [runCycles, hc, hr]
        rw [hrun] at h
        exact Except.noConfusion h
      | ok pr =>
        obtain ⟨mf, outs⟩ := pr
        have hrun : runCycles cfg net (k + 1) m = Except.ok (mf, o :: outs) := by
          simp [runCycles, hc, hr]
        rw [hrun] at h
        have hres := Except.ok.inj h
        subst hres
        have hstep := pollCycle_staking_default hs hc
        have hrec := ih o.metrics (mf, outs) hr
        refine ⟨?_, ?_⟩
        · rw [show ((mf, o :: outs).1.localCp) = mf.localCp from rfl, hrec.1, hstep.1]
        · intro x hx
          rcases List.mem_cons.mp hx with hx1 | hx2
          · subst hx1
            exact hstep
          · have hx3 := hrec.2 x hx2
            exact ⟨by rw [hx3.1, hstep.1], hx3.2⟩

/-- C10: whenever an endpoint flag keeps its `False` default, the
corresponding fetcher's HTTP call raises inside its guard (regardless of
what the network would answer) and yields the 0 sentinel — `(0, 0)` for
heimdall — so the corresponding gauge(s) are never labeled or set in any
number of cycles: across a whole run their state never changes and no
`labels(...)` call for them is ever performed (in particular the hostname
derivation for the `False` value is never reached). -/
theorem default_flags_leave_gauges_untouched (cfg : Config) (net : Request → HttpResult)
    (n : Nat) (m : Metrics) (res : Metrics × List CycleOut)
    (h : runCycles cfg net n m = Except.ok res) :
    (cfg.bor = ArgVal.noEndpoint →
      get_bor_height cfg.bor net = Except.ok 0 ∧
      res.1.bor = m.bor ∧
      ∀ o ∈ res.2, o.metrics.bor = m.bor ∧
        o.labelsUsed.all (fun p => !(p.1 == borGaugeName)) = true) ∧
    (cfg.heimdall = ArgVal.noEndpoint →
      get_heimdall_height cfg.heimdall net = Except.ok (0, 0) ∧
      res.1.heimdall = m.heimdall ∧ res.1.checkpoint = m.checkpoint ∧
      ∀ o ∈ res.2, o.metrics.heimdall = m.heimdall ∧ o.metrics.checkpoint = m.checkpoint ∧
        o.labelsUsed.all (fun p => !(p.1 == heimdallGaugeName) && !(p.1 == checkpointGaugeName)) = true) ∧
    (cfg.staking = ArgVal.noEndpoint →
      get_local_height cfg.staking cfg.validator net = Except.ok 0 ∧
      res.1.localCp = m.localCp ∧
      ∀ o ∈ res.2, o.metrics.localCp = m.localCp ∧
        o.labelsUsed.all (fun p => !(p.1 == localGaugeName)) = true) := by
  refine ⟨?_, ?_, ?_⟩
  · intro hb
    have hfetch : get_bor_height cfg.bor net = Except.ok 0 := by
      rw [hb]
      exact get_bor_height_noEndpoint net
    have hrun := runCycles_bor_default hb n m res h
    exact ⟨hfetch, hrun.1, hrun.2⟩
  · intro hh
    have hfetch : get_heimdall_height cfg.heimdall net = Except.ok (0, 0) := by
      rw [hh]
      exact get_heimdall_height_noEndpoint net
    have hrun := runCycles_heimdall_default hh n m res h
    exact ⟨hfetch, hrun.1, hrun.2.1, hrun.2.2⟩
  · intro hs
    have hfetch : get_local_height cfg.staking cfg.validator net = Except.ok 0 := by
      rw [hs]
      exact get_local_height_noStaking cfg.validator net
    have hrun := runCycles_staking_default hs n m res h
    exact ⟨hfetch, hrun.1, hrun.2⟩

/-- Witness for C10: two cycles with all flags at their defaults against
a responsive network — every fetch yields its sentinel, the registry
stays empty, and no gauge is ever labeled. -/
theorem default_flags_leave_gauges_untouched_witness :
    defaultConfig.bor = ArgVal.noEndpoint ∧
    get_bor_height defaultConfig.bor liveNet = Except.ok 0 ∧
    (emptyMetrics, [quietCycleOut, quietCycleOut]).1.bor = emptyMetrics.bor ∧
    get_heimdall_height defaultConfig.heimdall liveNet = Except.ok (0, 0) ∧
    get_local_height defaultConfig.staking defaultConfig.validator liveNet = Except.ok 0 := by
  have h := default_flags_leave_gauges_untouched defaultConfig liveNet 2 emptyMetrics
    (emptyMetrics, [quietCycleOut, quietCycleOut]) (by decide)
  exact ⟨rfl, (h.1 rfl).1, (h.1 rfl).2.1, (h.2.1 rfl).1, (h.2.2 rfl).1⟩
